import Mathlib

/-!
Verification of the webhook chat-bot front end (functions/main.py) against its
natural-language specification.  The Python source is shallowly embedded:

* `safe_pipe` / `add_logging` / `abort_on_error` become the `Step` /
  `safe_pipe` engine below, where the observable side effects of logging are an
  explicit `List LogLine` and exceptions are `Except`.
* stateful collaborators (the Telegram gateway and the Cloud Storage bucket)
  are a `World` record threaded explicitly; a gateway call appends a `GwCall`
  to a trace, failure of external sends is driven by Boolean fields of `World`.
* `random.choice` is modelled by indexing with `rand % length`, failing on the
  empty list exactly as `random.choice` does.
-/

namespace HonkBot

/-- Log lines recorded by the add_logging wrapper of the pipeline engine. -/
inductive LogLine where
  | attempt (name : String)
  | success (name : String)
  | failure (name : String) (cause : String)
deriving DecidableEq, Repr

/-- HTTP-level error raised by the request dispatcher (models https_fn.HttpsError). -/
structure HttpsErr where
  code : String
  message : String
deriving DecidableEq, Repr

/-- models the error built by abort_on_error from a step name and the cause. -/
def dispatchError (name cause : String) : HttpsErr :=
  { code := "aborted", message := "error in " ++ name ++ ": " ++ cause }

/-- a pipeline step: its qualified name and a fallible state-passing function.
State reached before a failure is kept (side effects made before an exception
persist), hence the `σ × Except String α` result. -/
structure Step (σ α : Type) where
  qualname : String
  f : σ → α → σ × Except String α

/-- models safe_pipe: each step is wrapped with add_logging (inner: ATTEMPT
before the call, SUCCESS or FAILURE after) and abort_on_error (outer: any
exception becomes an aborted HttpsError naming the step), then the wrapped
steps are folded over the initial value; an exception stops the fold. -/
def safe_pipe {σ α : Type} (w : σ) (x : α) : List (Step σ α) → σ × List LogLine × Except HttpsErr α
  | [] => (w, [], Except.ok x)
  | s :: rest =>
    match s.f w x with
    | (w1, Except.error e) =>
      (w1, [LogLine.attempt s.qualname, LogLine.failure s.qualname e],
       Except.error (dispatchError s.qualname e))
    | (w1, Except.ok y) =>
      match safe_pipe w1 y rest with
      | (w2, log, r) => (w2, LogLine.attempt s.qualname :: LogLine.success s.qualname :: log, r)

/-- Direct sequential composition of the steps applied to the initial value,
step i+1 receiving step i's output; written from the spec's words as the
reference side of the refinement claim C2 (no wrapping, no logging). -/
def compose {σ α : Type} (w : σ) (x : α) : List (Step σ α) → σ × Except String α
  | [] => (w, Except.ok x)
  | s :: rest =>
    match s.f w x with
    | (w1, Except.error e) => (w1, Except.error e)
    | (w1, Except.ok y) => compose w1 y rest

/-- the log trace of an all-succeeding run: one ATTEMPT and one SUCCESS line
per step, in step order. -/
def full_log {σ α : Type} : List (Step σ α) → List LogLine
  | [] => []
  | s :: rest => LogLine.attempt s.qualname :: LogLine.success s.qualname :: full_log rest

theorem safe_pipe_append_ok {σ α : Type} (l1 l2 : List (Step σ α)) (w w1 : σ) (x y : α)
    (log1 : List LogLine) (h : safe_pipe w x l1 = (w1, log1, Except.ok y)) :
    safe_pipe w x (l1 ++ l2) =
      ((safe_pipe w1 y l2).1, log1 ++ (safe_pipe w1 y l2).2.1, (safe_pipe w1 y l2).2.2) := by
  induction l1 generalizing w x log1 with
  | nil =>
    simp [safe_pipe] at h
    obtain ⟨rfl, rfl, rfl⟩ := h
    simp
  | cons s rest ih =>
    rcases hf : s.f w x with ⟨wa, ra⟩
    cases ra with
    | error e => simp [safe_pipe, hf] at h
    | ok ya =>
      rcases hr : safe_pipe wa ya rest with ⟨wb, logb, rb⟩
      simp [safe_pipe, hf, hr] at h
      obtain ⟨rfl, rfl, rfl⟩ := h
      have hrec := ih wa ya _ hr
      simp [safe_pipe, hf, hrec]

/-- C1: if every step before step s succeeds (threading the state) and s's
function then raises with some cause c, the whole pipeline run produces
exactly one translated error, whose client-facing shape is
aborted / "error in <stepName>: <cause>" naming s, and the steps after s are
never invoked: the result is the same for every suffix `post`, and the log
trace ends at s's FAILURE line. -/
theorem safe_pipe_failure_aborts {σ α : Type} (w w1 w2 : σ) (x y : α)
    (pre post : List (Step σ α)) (s : Step σ α) (log1 : List LogLine) (c : String)
    (hpre : safe_pipe w x pre = (w1, log1, Except.ok y))
    (hs : s.f w1 y = (w2, Except.error c)) :
    safe_pipe w x (pre ++ s :: post) =
      (w2, log1 ++ [LogLine.attempt s.qualname, LogLine.failure s.qualname c],
       Except.error (dispatchError s.qualname c)) := by
  rw [safe_pipe_append_ok pre (s :: post) w w1 x y log1 hpre]
  simp [safe_pipe, hs]

def incStep : Step Unit Nat := { qualname := "inc", f := fun u n => (u, Except.ok (n + 1)) }

def doubleStep : Step Unit Nat := { qualname := "double", f := fun u n => (u, Except.ok (2 * n)) }

def boomStep : Step Unit Nat := { qualname := "boom", f := fun u _ => (u, Except.error "boom") }

theorem safe_pipe_failure_aborts_witness :
    safe_pipe () 3 ([incStep] ++ boomStep :: [doubleStep]) =
      ((), [LogLine.attempt "inc", LogLine.success "inc"] ++
        [LogLine.attempt "boom", LogLine.failure "boom" "boom"],
       Except.error (dispatchError "boom" "boom")) :=
  safe_pipe_failure_aborts () () () 3 4 [incStep] [doubleStep] boomStep
    [LogLine.attempt "inc", LogLine.success "inc"] "boom" (by rfl) (by rfl)

/-- C2: on a step sequence whose direct sequential composition succeeds, the
engine returns the same final state and value and logs exactly one ATTEMPT and
one SUCCESS line per step, in step order; and on the empty step sequence the
engine returns the initial value unchanged with an empty log. -/
theorem safe_pipe_refines_compose {σ α : Type} (w : σ) (x : α) (steps : List (Step σ α)) :
    (∀ w1 y, compose w x steps = (w1, Except.ok y) →
      safe_pipe w x steps = (w1, full_log steps, Except.ok y))
    ∧ safe_pipe w x ([] : List (Step σ α)) = (w, [], Except.ok x) := by
  constructor
  · induction steps generalizing w x with
    | nil =>
      intro w1 y h
      simp [compose] at h
      obtain ⟨rfl, rfl⟩ := h
      simp [safe_pipe, full_log]
    | cons s rest ih =>
      intro w1 y h
      rcases hf : s.f w x with ⟨wa, ra⟩
      cases ra with
      | error e => simp [compose, hf] at h
      | ok ya =>
        simp [compose, hf] at h
        simp [safe_pipe, hf, full_log, ih wa ya w1 y h]
  · rfl

theorem safe_pipe_refines_compose_witness :
    safe_pipe () 3 [incStep, doubleStep] = ((), full_log [incStep, doubleStep], Except.ok 8) :=
  (safe_pipe_refines_compose () 3 [incStep, doubleStep]).1 () 8 (by rfl)

/-- a call made on an external collaborator: the Telegram gateway (presence
indicator, text/voice/document replies, webhook registration). -/
inductive GwCall where
  | presence (chatId : Nat) (action : String)
  | sendText (chatId : Nat) (text : String)
  | sendVoice (chatId : Nat) (blob : String)
  | sendDocument (chatId : Nat) (blob : String) (filename : String)
  | setWebhook (url : String)
deriving DecidableEq, Repr

/-- the external state threaded through a request: the Blob Store listing, the
randomness consumed by random.choice, the ENDPOINT config value, the trace of
gateway calls, Booleans driving which external sends raise, and the currently
registered webhook. -/
structure World where
  store : List String
  rand : Nat
  endpoint : String
  gwLog : List GwCall
  presenceFails : Bool
  sendFails : Bool
  setWebhookFails : Bool
  webhook : Option String
deriving DecidableEq, Repr

/-- content of a Telegram message: exactly one of text, voice, photo, video
(a Telegram message carries one kind; voice/photo/video messages have no
`text` field). -/
inductive Content where
  | text (t : String)
  | voice
  | photo
  | video
deriving DecidableEq, Repr

/-- an inbound update, as decoded by Update.de_json: originating chat and the
message content. -/
structure Upd where
  chatId : Nat
  content : Content
deriving DecidableEq, Repr

/-- models update.message.text: Some for a text message, None otherwise. -/
def message_text (u : Upd) : Option String :=
  match u.content with
  | Content.text t => some t
  | _ => none

/-- a handler coroutine: returns the new world and, when it raised, the
exception message (side effects made before the exception persist). -/
def HandlerM : Type := Upd → World → World × Option String

/-- models update.message.reply_chat_action. -/
def reply_chat_action (u : Upd) (a : String) (w : World) : World × Option String :=
  if w.presenceFails then (w, some "chat action failed")
  else ({ w with gwLog := w.gwLog ++ [GwCall.presence u.chatId a] }, none)

/-- models update.message.reply_text (and reply_markdown, which differs only
in parse mode, not in the call made). -/
def reply_text (u : Upd) (t : String) (w : World) : World × Option String :=
  if w.sendFails then (w, some "send failed")
  else ({ w with gwLog := w.gwLog ++ [GwCall.sendText u.chatId t] }, none)

/-- models update.message.reply_voice on downloaded bytes, identified here by
the blob name they were downloaded from. -/
def reply_voice (u : Upd) (blob : String) (w : World) : World × Option String :=
  if w.sendFails then (w, some "send failed")
  else ({ w with gwLog := w.gwLog ++ [GwCall.sendVoice u.chatId blob] }, none)

/-- models update.message.reply_document. -/
def reply_document (u : Upd) (blob : String) (filename : String) (w : World) :
    World × Option String :=
  if w.sendFails then (w, some "send failed")
  else ({ w with gwLog := w.gwLog ++ [GwCall.sendDocument u.chatId blob filename] }, none)

/-- models the _send_chat_action decorator: await the presence call first,
then the wrapped handler; an exception from the presence call propagates
before the handler body runs. -/
def send_chat_action (a : String) (h : HandlerM) : HandlerM := fun u w =>
  match reply_chat_action u a w with
  | (w1, none) => h u w1
  | (w1, some e) => (w1, some e)

/-- models Python str.split() on a character list: splits on whitespace runs
and drops empty pieces; `cur` accumulates the current word reversed. -/
def words_aux (cs : List Char) (cur : List Char) : List (List Char) :=
  match cs with
  | [] => if cur = [] then [] else [cur.reverse]
  | c :: rest =>
    if c.isWhitespace then
      (if cur = [] then [] else [cur.reverse]) ++ words_aux rest []
    else words_aux rest (c :: cur)

/-- models Python str.replace for a single-character pattern: every occurrence
of c is expanded to rep. -/
def replaceChar (c : Char) (rep : List Char) : List Char → List Char
  | [] => []
  | a :: l => (if a = c then rep else [a]) ++ replaceChar c rep l

/-- models ' '.join: single spaces between the pieces. -/
def joinSp : List (List Char) → List Char
  | [] => []
  | [word] => word
  | word :: ws => word ++ (' ' :: joinSp ws)

/-- the pure text transformation inside press_x_to_honk: split on whitespace,
keep the words all of whose lowercased characters are 'x', replace each 'x'
with "honk" then each 'X' with "HONK", join with single spaces. -/
def press_x_reply (text : String) : String :=
  let words := words_aux text.data []
  let all_x := words.filter (fun word => word.all (fun c => c.toLower = 'x'))
  let honks := all_x.map (fun xs => replaceChar 'X' "HONK".data (replaceChar 'x' "honk".data xs))
  String.mk (joinSp honks)

/-- true when the first list is an initial segment of the second (used to
model the bucket listing by name pre-string, and command matching). -/
def strLeads : List Char → List Char → Bool
  | [], _ => true
  | _ :: _, [] => false
  | a :: l, b :: m => a = b && strLeads l m

/-- models bucket.list_blobs(prefix=pre, delimiter=delim, fields='items(name)'):
all object names starting with pre; with a delimiter, only those with no
delimiter character after pre (the rest are aggregated, not items). -/
def list_blobs (store : List String) (pre : String) (delim : Option Char) : List String :=
  let l := store.filter (fun n => strLeads pre.data n.data)
  match delim with
  | none => l
  | some d => l.filter (fun n => !((n.data.drop pre.length).any (fun c => c = d)))

/-- the message of the IndexError random.choice raises on an empty sequence;
the spec calls the resulting translated failure NoAssetFoundError. -/
def noAssetFoundCause : String := "Cannot choose from an empty sequence"

/-- models random.choice: uniform selection via the consumed randomness r,
raising on an empty sequence. -/
def random_choice (l : List String) (r : Nat) : Except HttpsErr String :=
  match l with
  | [] => Except.error (dispatchError "Random.choice" noAssetFoundCause)
  | a :: m => Except.ok ((a :: m).getD (r % (a :: m).length) "")

/-- models random_blob: list the blobs under pre, drop any name equal to pre,
deduplicate into a set, choose one uniformly, resolve it to a handle (here:
its name). The enclosing safe_pipe wraps a choice failure as an aborted
HttpsError naming the step. -/
def random_blob (w : World) (pre : String) (delim : Option Char) :
    World × Except HttpsErr String :=
  (w, random_choice (((list_blobs w.store pre delim).filter (fun n => n != pre)).dedup) w.rand)

/-- body of the honk handler (inside its presence decorator): pick a random
blob under "audio/", download it, reply with it as a voice message. -/
def honk_body : HandlerM := fun u w =>
  match random_blob w "audio/" none with
  | (w1, Except.error e) => (w1, some e.message)
  | (w1, Except.ok blob) => reply_voice u blob w1

def honk : HandlerM := send_chat_action "record_voice" honk_body

/-- body of the send_gif handler: random blob under "media/hello/" listed
non-recursively, downloaded, replied as a document named hello.gif. -/
def send_gif_body : HandlerM := fun u w =>
  match random_blob w "media/hello/" (some '/') with
  | (w1, Except.error e) => (w1, some e.message)
  | (w1, Except.ok blob) => reply_document u blob "hello.gif" w1

def send_gif : HandlerM := send_chat_action "upload_photo" send_gif_body

def greet_body : HandlerM := fun u w =>
  reply_text u "honk honk (/help to call for help ❤️ 🔪)" w

def greet : HandlerM := send_chat_action "typing" greet_body

def help_body : HandlerM := fun u w =>
  reply_text u ("It's a lovely morning in the village, and you are a horrible goose."
    ++ "\n\n*Commands*\n/start to say hello\n/help shows this message\n/honk to honk..?"
    ++ "\n\n*Talk to a goose*\n(In groups, only responds to replies to reduce spam)"
    ++ "\npress x to honk\npress X to HONK") w

def help_ : HandlerM := send_chat_action "typing" help_body

/-- models start: await send_gif, then greet (greet is skipped if send_gif
raised). -/
def start : HandlerM := fun u w =>
  match send_gif u w with
  | (w1, none) => greet u w1
  | (w1, some e) => (w1, some e)

/-- body of press_x_to_honk: read update.message.text (raising, like
None.split(), when the message has no text), transform it, and reply only
when the transformed string is non-empty. -/
def press_x_body : HandlerM := fun u w =>
  match message_text u with
  | none => (w, some "AttributeError")
  | some t =>
    let reply := press_x_reply t
    if reply = "" then (w, none) else reply_text u reply w

def press_x_to_honk : HandlerM := send_chat_action "typing" press_x_body

/-- the fallback error handler oops: presence, then a fixed apology text. -/
def oops_body : HandlerM := fun u w =>
  reply_text u "Sad honks (something went wrong 💔🔪)" w

def oops : HandlerM := send_chat_action "typing" oops_body

/-- names for the registered handler functions, so that which handler the
router selects is a first-class, decidable value. -/
inductive HandlerId where
  | start
  | help_
  | honk
  | send_gif
  | press_x_to_honk
deriving DecidableEq, Repr

def handlerOf : HandlerId → HandlerM
  | HandlerId.start => start
  | HandlerId.help_ => help_
  | HandlerId.honk => honk
  | HandlerId.send_gif => send_gif
  | HandlerId.press_x_to_honk => press_x_to_honk

/-- the matchers used in _register_handlers: CommandHandler(name, _),
filters.VOICE, filters.PHOTO | filters.VIDEO, filters.TEXT & ~filters.COMMAND. -/
inductive Matcher where
  | command (name : String)
  | voiceFilter
  | photoOrVideo
  | textNonCommand
deriving DecidableEq, Repr

/-- the first whitespace-separated token of a text, used by CommandHandler to
match "/name" and "/name args" (the bot-mention suffix "@bot" is not
modelled). -/
def first_token (t : String) : String :=
  String.mk ((words_aux t.data []).headD [])

def starts_slash (t : String) : Bool :=
  match t.data with
  | [] => false
  | c :: _ => c = '/'

def matcher_fires : Matcher → Content → Bool
  | Matcher.command name, Content.text t => first_token t == "/" ++ name
  | Matcher.command _, _ => false
  | Matcher.voiceFilter, Content.voice => true
  | Matcher.voiceFilter, _ => false
  | Matcher.photoOrVideo, Content.photo => true
  | Matcher.photoOrVideo, Content.video => true
  | Matcher.photoOrVideo, _ => false
  | Matcher.textNonCommand, Content.text t => !starts_slash t
  | Matcher.textNonCommand, _ => false

/-- the handlers registered by AppBuilder._register_handlers, in registration
order (first match wins within one group). -/
def route_table : List (Matcher × HandlerId) :=
  [ (Matcher.command "start", HandlerId.start),
    (Matcher.command "help", HandlerId.help_),
    (Matcher.command "honk", HandlerId.honk),
    (Matcher.voiceFilter, HandlerId.honk),
    (Matcher.photoOrVideo, HandlerId.send_gif),
    (Matcher.textNonCommand, HandlerId.press_x_to_honk) ]

def first_match (c : Content) : Option HandlerId :=
  (route_table.find? (fun p => matcher_fires p.1 c)).map (fun p => p.2)

/-- models Application.process_update: no Update (de_json returned None) or no
matching handler is a silent no-op; a raising handler is funneled to the
registered error handler oops, whose own exception is caught and only logged
by the framework. -/
def process_update (w : World) : Option Upd → World
  | none => w
  | some u =>
    match first_match u.content with
    | none => w
    | some hid =>
      match handlerOf hid u w with
      | (w1, none) => w1
      | (w1, some _) => (oops u w1).1

/-- outcome of parsing-then-decoding the POST body: request.get_json(force=True)
raises (not JSON), Update.de_json raises (undecodable payload), Update.de_json
returns None (null payload), or a decoded update. -/
inductive Body where
  | notJson
  | undecodable
  | null
  | update (u : Upd)
deriving DecidableEq, Repr

/-- an inbound HTTPS request: method, the query string it carries (never read
by the code), and its body's decode outcome. -/
structure Request where
  method : String
  query : String
  body : Body
deriving DecidableEq, Repr

/-- the untyped values flowing through the dispatcher's pipelines. -/
inductive Val where
  | str (s : String)
  | app
  | json (b : Body)
  | update (u : Option Upd)
  | request (r : Request)
  | response (r : String)
deriving DecidableEq, Repr

def build_application_step : Step World Val :=
  { qualname := "AppBuilder._build_application", f := fun w _ => (w, Except.ok Val.app) }

def register_handlers_step : Step World Val :=
  { qualname := "AppBuilder._register_handlers", f := fun w _ => (w, Except.ok Val.app) }

def set_bot_webhook_step : Step World Val :=
  { qualname := "RequestHandler._set_bot_webhook", f := fun w v =>
      match v with
      | Val.str url =>
        if w.setWebhookFails then (w, Except.error "set_webhook failed")
        else ({ w with gwLog := w.gwLog ++ [GwCall.setWebhook url], webhook := some url },
              Except.ok (Val.response "Set webhook"))
      | _ => (w, Except.error "TypeError") }

def extract_json_step : Step World Val :=
  { qualname := "RequestHandler._extract_json_from_request", f := fun w v =>
      match v with
      | Val.request r =>
        match r.body with
        | Body.notJson => (w, Except.error "Failed to decode JSON object")
        | b => (w, Except.ok (Val.json b))
      | _ => (w, Except.error "TypeError") }

def convert_json_to_update_step : Step World Val :=
  { qualname := "RequestHandler._convert_json_to_update", f := fun w v =>
      match v with
      | Val.json Body.undecodable => (w, Except.error "could not deserialize Update")
      | Val.json Body.null => (w, Except.ok (Val.update none))
      | Val.json (Body.update u) => (w, Except.ok (Val.update (some u)))
      | _ => (w, Except.error "TypeError") }

def handle_update_with_app_step : Step World Val :=
  { qualname := "RequestHandler._handle_update_with_app", f := fun w v =>
      match v with
      | Val.update ou => (process_update w ou, Except.ok (Val.response "ok"))
      | _ => (w, Except.error "TypeError") }

def getResponse : Except HttpsErr Val → Except HttpsErr String
  | Except.error e => Except.error e
  | Except.ok (Val.response r) => Except.ok r
  | Except.ok _ => Except.ok ""

/-- the log emitted by the application-construction pipeline that
handle_request always runs before looking at the request method. -/
def app_build_log : List LogLine :=
  [ LogLine.attempt "AppBuilder._build_application",
    LogLine.success "AppBuilder._build_application",
    LogLine.attempt "AppBuilder._register_handlers",
    LogLine.success "AppBuilder._register_handlers" ]

/-- models handle_request: build and register the application through
safe_pipe, then branch on the method: GET registers ENDPOINT.value as the
webhook, POST runs extract-decode-process, anything else raises an
unimplemented HttpsError. -/
def handle_request (w : World) (req : Request) :
    World × List LogLine × Except HttpsErr String :=
  match safe_pipe w (Val.str "BOT_TOKEN") [build_application_step, register_handlers_step] with
  | (w1, log1, Except.error e) => (w1, log1, Except.error e)
  | (w1, log1, Except.ok _) =>
    if req.method = "GET" then
      match safe_pipe w1 (Val.str w1.endpoint) [set_bot_webhook_step] with
      | (w2, log2, r) => (w2, log1 ++ log2, getResponse r)
    else if req.method = "POST" then
      match safe_pipe w1 (Val.request req)
          [extract_json_step, convert_json_to_update_step, handle_update_with_app_step] with
      | (w2, log2, r) => (w2, log1 ++ log2, getResponse r)
    else
      (w1, log1, Except.error { code := "unimplemented", message := req.method ++ " not supported" })

/-- a world whose gateway and store calls all succeed, with an empty store. -/
def okWorld : World :=
  { store := [], rand := 0, endpoint := "", gwLog := [], presenceFails := false,
    sendFails := false, setWebhookFails := false, webhook := none }

/-- C3 counterexample: on "press x to honk" the transformation yields "honk"
(only the token "x" survives the filter), not the claimed "honk honk"; and on
"xX yes" the mixed-case token "xX" is kept, not excluded, so a reply
"honkHONK" is sent rather than no reply. -/
theorem press_x_claimed_examples_false :
    press_x_reply "press x to honk" = "honk"
    ∧ "honk" ≠ "honk honk"
    ∧ (press_x_to_honk { chatId := 7, content := Content.text "xX yes" } okWorld).1.gwLog
        = [GwCall.presence 7 "typing", GwCall.sendText 7 "honkHONK"] := by
  refine ⟨by decide, by decide, by decide⟩

/-- C3 (amended): press_x_to_honk splits the text on whitespace and keeps the
tokens all of whose lowercased characters are x, so mixed-case tokens such as
"xX" are kept, not excluded; each lowercase x becomes "honk" and each
uppercase X becomes "HONK" inside the token; the surviving tokens are joined
with single spaces, and no reply is sent exactly when the result is empty.
So "press x to honk" yields "honk", "press X to HONK" yields "HONK",
"hello world" yields no reply, and "xX yes" yields "honkHONK". -/
theorem press_x_to_honk_amended (u : Upd) (w : World) (t : String)
    (ht : u.content = Content.text t) (hp : w.presenceFails = false)
    (hs : w.sendFails = false) :
    (press_x_reply t ≠ "" →
      press_x_to_honk u w =
        ({ w with gwLog := w.gwLog ++ [GwCall.presence u.chatId "typing",
            GwCall.sendText u.chatId (press_x_reply t)] }, none))
    ∧ (press_x_reply t = "" →
      press_x_to_honk u w =
        ({ w with gwLog := w.gwLog ++ [GwCall.presence u.chatId "typing"] }, none))
    ∧ press_x_reply "press x to honk" = "honk"
    ∧ press_x_reply "press X to HONK" = "HONK"
    ∧ press_x_reply "hello world" = ""
    ∧ press_x_reply "xX yes" = "honkHONK" := by
  refine ⟨?_, ?_, by decide, by decide, by decide, by decide⟩
  · intro hne
    simp [press_x_to_honk, send_chat_action, reply_chat_action, hp, press_x_body,
      message_text, ht, hne, reply_text, hs, List.append_assoc]
  · intro heq
    simp [press_x_to_honk, send_chat_action, reply_chat_action, hp, press_x_body,
      message_text, ht, heq, reply_text, hs]

theorem press_x_to_honk_amended_witness :
    press_x_to_honk { chatId := 7, content := Content.text "x x" } okWorld =
      ({ okWorld with gwLog := [GwCall.presence 7 "typing", GwCall.sendText 7 "honk honk"] },
       none) :=
  (press_x_to_honk_amended { chatId := 7, content := Content.text "x x" } okWorld "x x"
    rfl rfl rfl).1 (by decide)

/-- the full log of a POST request whose three pipeline steps all succeed. -/
def post_ok_log : List LogLine :=
  app_build_log ++
  [ LogLine.attempt "RequestHandler._extract_json_from_request",
    LogLine.success "RequestHandler._extract_json_from_request",
    LogLine.attempt "RequestHandler._convert_json_to_update",
    LogLine.success "RequestHandler._convert_json_to_update",
    LogLine.attempt "RequestHandler._handle_update_with_app",
    LogLine.success "RequestHandler._handle_update_with_app" ]

/-- C4: on POST, a body that is not JSON or whose payload cannot be
deserialized into an Update makes the dispatcher raise an aborted HttpsError
with the router never invoked (the world, in particular the gateway trace, is
untouched and the log stops at the failing decode step); a body that decodes
(to an update, or to None for a null payload) yields 200 "ok" whatever
process_update does. -/
theorem post_dispatch_behavior (w : World) (req : Request) (hm : req.method = "POST") :
    (req.body = Body.notJson →
      handle_request w req =
        (w, app_build_log ++
          [LogLine.attempt "RequestHandler._extract_json_from_request",
           LogLine.failure "RequestHandler._extract_json_from_request"
             "Failed to decode JSON object"],
         Except.error (dispatchError "RequestHandler._extract_json_from_request"
           "Failed to decode JSON object")))
    ∧ (req.body = Body.undecodable →
      handle_request w req =
        (w, app_build_log ++
          [LogLine.attempt "RequestHandler._extract_json_from_request",
           LogLine.success "RequestHandler._extract_json_from_request",
           LogLine.attempt "RequestHandler._convert_json_to_update",
           LogLine.failure "RequestHandler._convert_json_to_update"
             "could not deserialize Update"],
         Except.error (dispatchError "RequestHandler._convert_json_to_update"
           "could not deserialize Update")))
    ∧ (req.body = Body.null →
      handle_request w req = (w, post_ok_log, Except.ok "ok"))
    ∧ (∀ u, req.body = Body.update u →
      handle_request w req = (process_update w (some u), post_ok_log, Except.ok "ok")) := by
  rcases req with ⟨m, q, b⟩
  have hm2 : m = "POST" := hm
  subst hm2
  refine ⟨?_, ?_, ?_, ?_⟩
  · intro h
    have hb : b = Body.notJson := h
    subst hb
    rfl
  · intro h
    have hb : b = Body.undecodable := h
    subst hb
    rfl
  · intro h
    have hb : b = Body.null := h
    subst hb
    rfl
  · intro u h
    have hb : b = Body.update u := h
    subst hb
    rfl

theorem post_dispatch_behavior_witness :
    handle_request okWorld { method := "POST", query := "", body := Body.notJson } =
      (okWorld, app_build_log ++
        [LogLine.attempt "RequestHandler._extract_json_from_request",
         LogLine.failure "RequestHandler._extract_json_from_request"
           "Failed to decode JSON object"],
       Except.error (dispatchError "RequestHandler._extract_json_from_request"
         "Failed to decode JSON object")) :=
  (post_dispatch_behavior okWorld { method := "POST", query := "", body := Body.notJson }
    rfl).1 rfl

/-- C5 counterexample: on a PUT request the dispatcher does produce logging
side effects beyond the error itself: the application-construction pipeline
runs first and emits four log lines. -/
theorem put_request_logs_counterexample :
    (handle_request okWorld { method := "PUT", query := "", body := Body.null }).2.1
      = app_build_log
    ∧ app_build_log ≠ [] := by
  refine ⟨rfl, by decide⟩

/-- C5 (amended): on a method other than GET and POST the dispatcher fails
with an unimplemented HttpsError whose message is "<method> not supported",
performs zero gateway or store calls and runs no request-processing pipeline
(the world is returned unchanged), but the application-construction pipeline
has already run and logged its two ATTEMPT/SUCCESS pairs. -/
theorem unsupported_method_amended (w : World) (req : Request)
    (h1 : req.method ≠ "GET") (h2 : req.method ≠ "POST") :
    handle_request w req =
      (w, app_build_log,
       Except.error { code := "unimplemented", message := req.method ++ " not supported" }) := by
  rcases req with ⟨m, q, b⟩
  have g1 : m ≠ "GET" := h1
  have g2 : m ≠ "POST" := h2
  simp [handle_request, safe_pipe, build_application_step, register_handlers_step, g1, g2,
    app_build_log]

theorem unsupported_method_amended_witness :
    handle_request okWorld { method := "PUT", query := "", body := Body.null } =
      (okWorld, app_build_log,
       Except.error { code := "unimplemented", message := "PUT not supported" }) :=
  unsupported_method_amended okWorld { method := "PUT", query := "", body := Body.null }
    (by decide) (by decide)

/-- a world whose presence calls raise before reaching the gateway. -/
def failPresenceWorld : World :=
  { store := [], rand := 0, endpoint := "", gwLog := [], presenceFails := true,
    sendFails := false, setWebhookFails := false, webhook := none }

/-- C6 counterexample: when the gateway's presence call raises, the fallback
handler oops itself raises (its wrapped chat-action call propagates), refuting
"the fallback handler itself never raises"; the router swallows that failure,
so the POST request still answers 200 "ok". -/
theorem oops_raises_counterexample :
    (oops { chatId := 5, content := Content.voice } failPresenceWorld).2
      = some "chat action failed"
    ∧ (handle_request failPresenceWorld
        { method := "POST", query := "",
          body := Body.update { chatId := 5, content := Content.voice } }).2.2
      = Except.ok "ok" := by
  exact ⟨rfl, rfl⟩

/-- C6 (amended): a raising handler invocation is funneled to the fallback
handler oops, run on the state the handler left behind; when the gateway
accepts its calls oops appends the typing presence and the fixed apology text
to the originating chat; any failure of oops itself is swallowed by the
router, so nothing propagates to the dispatcher and the POST request still
returns 200 "ok" — but oops is not itself exception-free. -/
theorem handler_failure_funneled (w w1 : World) (u : Upd) (hid : HandlerId) (e : String)
    (hm : first_match u.content = some hid)
    (hf : handlerOf hid u w = (w1, some e)) :
    process_update w (some u) = (oops u w1).1
    ∧ (w1.presenceFails = false → w1.sendFails = false →
        (oops u w1).1 = { w1 with gwLog := w1.gwLog ++ [GwCall.presence u.chatId "typing",
          GwCall.sendText u.chatId "Sad honks (something went wrong 💔🔪)"] })
    ∧ (∀ q, (handle_request w { method := "POST", query := q, body := Body.update u }).2.2
        = Except.ok "ok") := by
  refine ⟨?_, ?_, ?_⟩
  · simp [process_update, hm, hf]
  · intro hp hs
    simp [oops, send_chat_action, reply_chat_action, hp, oops_body, reply_text, hs,
      List.append_assoc]
  · intro q
    rfl

/-- the state honk leaves behind when it raises on an empty store: the
presence call has already happened. -/
def honkFailedWorld : World :=
  { okWorld with gwLog := [GwCall.presence 5 "record_voice"] }

theorem handler_failure_funneled_witness :
    process_update okWorld (some { chatId := 5, content := Content.voice })
      = (oops { chatId := 5, content := Content.voice } honkFailedWorld).1
    ∧ (oops { chatId := 5, content := Content.voice } honkFailedWorld).1
      = { honkFailedWorld with gwLog := honkFailedWorld.gwLog ++
          [GwCall.presence 5 "typing",
           GwCall.sendText 5 "Sad honks (something went wrong 💔🔪)"] }
    ∧ (handle_request okWorld
        { method := "POST", query := "",
          body := Body.update { chatId := 5, content := Content.voice } }).2.2
      = Except.ok "ok" :=
  ⟨(handler_failure_funneled okWorld honkFailedWorld
      { chatId := 5, content := Content.voice } HandlerId.honk
      "error in Random.choice: Cannot choose from an empty sequence" rfl rfl).1,
   (handler_failure_funneled okWorld honkFailedWorld
      { chatId := 5, content := Content.voice } HandlerId.honk
      "error in Random.choice: Cannot choose from an empty sequence" rfl rfl).2.1 rfl rfl,
   (handler_failure_funneled okWorld honkFailedWorld
      { chatId := 5, content := Content.voice } HandlerId.honk
      "error in Random.choice: Cannot choose from an empty sequence" rfl rfl).2.2 ""⟩

/-- a world with a configured ENDPOINT URL, distinct from any request query. -/
def endpointWorld : World :=
  { store := [], rand := 0, endpoint := "https://bot.example/hook", gwLog := [],
    presenceFails := false, sendFails := false, setWebhookFails := false, webhook := none }

/-- C7 counterexample: the URL registered on GET is the configured ENDPOINT
value and not the callback URL carried by the request's query, refuting
"takes the public callback URL carried by the request's query/body". -/
theorem get_ignores_request_counterexample :
    (handle_request endpointWorld
      { method := "GET", query := "https://attacker.example/cb", body := Body.null }).1.webhook
      = some "https://bot.example/hook"
    ∧ some "https://bot.example/hook" ≠ some "https://attacker.example/cb" := by
  refine ⟨rfl, by decide⟩

/-- C7 (amended): on GET the dispatcher ignores the request's query/body and
registers the ENDPOINT configuration value as the webhook; on success it
returns 200 "Set webhook", and on a registration failure it propagates the
translated aborted DispatchError naming the step. -/
theorem get_registers_endpoint (w : World) (req : Request) (hm : req.method = "GET") :
    (w.setWebhookFails = false →
      handle_request w req =
        ({ w with
            gwLog := w.gwLog ++ [GwCall.setWebhook w.endpoint],
            webhook := some w.endpoint },
         app_build_log ++ [LogLine.attempt "RequestHandler._set_bot_webhook",
           LogLine.success "RequestHandler._set_bot_webhook"],
         Except.ok "Set webhook"))
    ∧ (w.setWebhookFails = true →
      handle_request w req =
        (w, app_build_log ++ [LogLine.attempt "RequestHandler._set_bot_webhook",
           LogLine.failure "RequestHandler._set_bot_webhook" "set_webhook failed"],
         Except.error (dispatchError "RequestHandler._set_bot_webhook" "set_webhook failed"))) := by
  rcases req with ⟨m, q, b⟩
  have hm2 : m = "GET" := hm
  subst hm2
  constructor
  · intro h
    simp [handle_request, safe_pipe, build_application_step, register_handlers_step,
      set_bot_webhook_step, h, getResponse, app_build_log]
  · intro h
    simp [handle_request, safe_pipe, build_application_step, register_handlers_step,
      set_bot_webhook_step, h, getResponse, app_build_log, dispatchError]

theorem get_registers_endpoint_witness :
    handle_request endpointWorld
      { method := "GET", query := "https://attacker.example/cb", body := Body.null } =
      ({ endpointWorld with
          gwLog := [GwCall.setWebhook "https://bot.example/hook"],
          webhook := some "https://bot.example/hook" },
       app_build_log ++ [LogLine.attempt "RequestHandler._set_bot_webhook",
         LogLine.success "RequestHandler._set_bot_webhook"],
       Except.ok "Set webhook") :=
  (get_registers_endpoint endpointWorld
    { method := "GET", query := "https://attacker.example/cb", body := Body.null } rfl).1 rfl

theorem random_choice_mem (l : List String) (r : Nat) (s : String)
    (h : random_choice l r = Except.ok s) : s ∈ l := by
  cases l with
  | nil => simp [random_choice] at h
  | cons a m =>
    have h2 : (a :: m).getD (r % (a :: m).length) "" = s := Except.ok.inj h
    have hlt : r % (a :: m).length < (a :: m).length :=
      Nat.mod_lt _ (Nat.succ_pos _)
    rw [List.getD_eq_getElem _ _ hlt] at h2
    subst h2
    exact List.getElem_mem hlt

/-- the store of the C8 example with two real assets and a directory marker. -/
def audioStoreWorld (r : Nat) : World :=
  { store := ["audio/", "audio/a.ogg", "audio/b.ogg"], rand := r, endpoint := "",
    gwLog := [], presenceFails := false, sendFails := false, setWebhookFails := false,
    webhook := none }

/-- the store of the C8 example with only the directory marker. -/
def markerOnlyWorld (r : Nat) : World :=
  { store := ["audio/"], rand := r, endpoint := "", gwLog := [], presenceFails := false,
    sendFails := false, setWebhookFails := false, webhook := none }

/-- C8: any name random_blob returns is one of the listed names under the
query and never the name equal to the query itself; over the store
containing "audio/", "audio/a.ogg", "audio/b.ogg" with query "audio/" it
returns "audio/a.ogg" or "audio/b.ogg" for every randomness, and over the
store containing only "audio/" it always fails with the NoAssetFoundError. -/
theorem random_blob_spec :
    (∀ (w : World) (p n : String) (d : Option Char),
      (random_blob w p d).2 = Except.ok n → n ∈ list_blobs w.store p d ∧ n ≠ p)
    ∧ (∀ r : Nat,
        (random_blob (audioStoreWorld r) "audio/" none).2 = Except.ok "audio/a.ogg"
        ∨ (random_blob (audioStoreWorld r) "audio/" none).2 = Except.ok "audio/b.ogg")
    ∧ (∀ r : Nat,
        (random_blob (markerOnlyWorld r) "audio/" none).2
          = Except.error (dispatchError "Random.choice" noAssetFoundCause)) := by
  refine ⟨?_, ?_, ?_⟩
  · intro w p n d h
    have hmem : n ∈ ((list_blobs w.store p d).filter (fun x => x != p)).dedup :=
      random_choice_mem _ _ _ h
    rw [List.mem_dedup, List.mem_filter] at hmem
    exact ⟨hmem.1, by simpa using hmem.2⟩
  · intro r
    show random_choice
        (((list_blobs ["audio/", "audio/a.ogg", "audio/b.ogg"] "audio/" none).filter
          (fun x => x != "audio/")).dedup) r = _ ∨ _
    have hL : (((list_blobs ["audio/", "audio/a.ogg", "audio/b.ogg"] "audio/" none).filter
        (fun x => x != "audio/")).dedup) = ["audio/a.ogg", "audio/b.ogg"] := by decide
    rw [hL]
    rcases Nat.mod_two_eq_zero_or_one r with h | h
    · left
      show Except.ok ((["audio/a.ogg", "audio/b.ogg"]).getD (r % 2) "") = _
      rw [h]
      rfl
    · right
      show Except.ok ((["audio/a.ogg", "audio/b.ogg"]).getD (r % 2) "") = _
      rw [h]
      rfl
  · intro r
    show random_choice
        (((list_blobs ["audio/"] "audio/" none).filter (fun x => x != "audio/")).dedup) r = _
    have hL : (((list_blobs ["audio/"] "audio/" none).filter
        (fun x => x != "audio/")).dedup) = ([] : List String) := by decide
    rw [hL]
    rfl

theorem random_blob_spec_witness :
    "audio/a.ogg" ∈ list_blobs ["audio/", "audio/a.ogg", "audio/b.ogg"] "audio/" none
    ∧ "audio/a.ogg" ≠ "audio/" :=
  random_blob_spec.1 (audioStoreWorld 0) "audio/" "audio/a.ogg" none rfl

/-- a world with audio assets whose presence call raises. -/
def failPresenceAudioWorld : World :=
  { store := ["audio/", "audio/a.ogg"], rand := 0, endpoint := "", gwLog := [],
    presenceFails := true, sendFails := false, setWebhookFails := false, webhook := none }

/-- a world with audio assets whose gateway fully works. -/
def audioWorld : World :=
  { store := ["audio/", "audio/a.ogg"], rand := 0, endpoint := "", gwLog := [],
    presenceFails := false, sendFails := false, setWebhookFails := false, webhook := none }

/-- C9 counterexample: when the presence emission raises, the handler is
aborted and its substantive reply is never attempted — the same world with a
working presence call does send the voice reply — refuting "a failure of this
presence emission does not abort the handler". -/
theorem presence_failure_aborts_counterexample :
    honk { chatId := 7, content := Content.voice } failPresenceAudioWorld
      = (failPresenceAudioWorld, some "chat action failed")
    ∧ (honk { chatId := 7, content := Content.voice } audioWorld).1.gwLog
      = [GwCall.presence 7 "record_voice", GwCall.sendVoice 7 "audio/a.ogg"] := by
  exact ⟨rfl, rfl⟩

/-- C9 (amended): every registered handler is wrapped so that a presence call
appropriate to its reply type (typing, upload_photo, record_voice) reaches the
gateway before the handler body runs; but the presence call is awaited
unprotected, so its failure aborts the handler before any substantive reply is
attempted, propagating to the router's error handling. -/
theorem send_chat_action_amended (a : String) (h : HandlerM) (u : Upd) (w : World) :
    (w.presenceFails = false →
      send_chat_action a h u w = h u { w with gwLog := w.gwLog ++ [GwCall.presence u.chatId a] })
    ∧ (w.presenceFails = true →
      send_chat_action a h u w = (w, some "chat action failed"))
    ∧ honk = send_chat_action "record_voice" honk_body
    ∧ send_gif = send_chat_action "upload_photo" send_gif_body
    ∧ greet = send_chat_action "typing" greet_body
    ∧ help_ = send_chat_action "typing" help_body
    ∧ press_x_to_honk = send_chat_action "typing" press_x_body
    ∧ oops = send_chat_action "typing" oops_body := by
  refine ⟨?_, ?_, rfl, rfl, rfl, rfl, rfl, rfl⟩
  · intro hp
    simp [send_chat_action, reply_chat_action, hp]
  · intro hp
    simp [send_chat_action, reply_chat_action, hp]

theorem send_chat_action_amended_witness :
    send_chat_action "record_voice" honk_body { chatId := 7, content := Content.voice } audioWorld
      = honk_body { chatId := 7, content := Content.voice }
          { audioWorld with gwLog := audioWorld.gwLog ++ [GwCall.presence 7 "record_voice"] } :=
  (send_chat_action_amended "record_voice" honk_body
    { chatId := 7, content := Content.voice } audioWorld).1 rfl

/-- C10: a voice update selects the honk handler, exactly as the explicit
/honk command does, and dispatching a voice update from a chat has the very
same effect as dispatching the /honk command from that chat: the uniformly
chosen blob under "audio/" is downloaded and sent back as a voice reply. -/
theorem voice_routes_to_honk :
    first_match Content.voice = some HandlerId.honk
    ∧ first_match (Content.text "/honk") = some HandlerId.honk
    ∧ (∀ (w : World) (c : Nat),
        process_update w (some { chatId := c, content := Content.voice })
          = process_update w (some { chatId := c, content := Content.text "/honk" }))
    ∧ (∀ (w : World) (c : Nat) (n : String),
        w.presenceFails = false → w.sendFails = false →
        (random_blob w "audio/" none).2 = Except.ok n →
        process_update w (some { chatId := c, content := Content.voice })
          = { w with gwLog := w.gwLog ++ [GwCall.presence c "record_voice",
              GwCall.sendVoice c n] }) := by
  refine ⟨by decide, by decide, ?_, ?_⟩
  · intro w c
    rfl
  · intro w c n hp hs h
    simp [random_blob] at h
    simp [process_update, first_match, route_table, matcher_fires, handlerOf, honk,
      send_chat_action, reply_chat_action, hp, honk_body, random_blob, h, reply_voice, hs,
      List.append_assoc]

theorem voice_routes_to_honk_witness :
    process_update audioWorld (some { chatId := 7, content := Content.voice })
      = { audioWorld with gwLog := [GwCall.presence 7 "record_voice",
          GwCall.sendVoice 7 "audio/a.ogg"] } :=
  voice_routes_to_honk.2.2.2 audioWorld 7 "audio/a.ogg" rfl rfl rfl

end HonkBot
